import Mathlib

/-!
Verification of the fastapi-batteries CRUD core
(src/fastapi_batteries/crud/__init__.py) against its specification.

The embedding models a SQLAlchemy Select over a record type as a structure
carrying the list of matched source rows, a column projection, and optional
limit/offset clauses.  Execution drops the offset, takes the limit and maps
the projection — the relational semantics of
SELECT proj FROM ... WHERE ... LIMIT lim OFFSET off.  The CRUD class is a
structure carrying the bound model schema (mapper introspection data) and the
table contents; its methods are translated one-for-one from the Python source.

Error taxonomy (spec section 7): the spec name InvalidArgument corresponds to
Python ValueError in the source, PreconditionFailed to AttributeError, and
APIException carries an HTTP status and a title exactly as the source
constructs it.
-/

/-- Errors raised by the CRUD core.  invalidArgument embeds Python
ValueError, preconditionFailed embeds AttributeError, multipleResultsFound
embeds sqlalchemy.exc.MultipleResultsFound, and apiException embeds
fastapi_batteries.fastapi.exceptions.APIException with its status and title. -/
inductive CRUDError where
  | invalidArgument (msg : String)
  | preconditionFailed (msg : String)
  | multipleResultsFound
  | apiException (status : Nat) (title : String)
deriving DecidableEq, Repr

/-- Schema introspection data of a SQLAlchemy model
(model.__name__, model.__mapper__.primary_key, model.__mapper__.columns). -/
structure Mapper where
  name : String
  primary_key : List String
  columns : List String
deriving DecidableEq, Repr

/-- A Select statement over records of type α projected to values of type β:
rows is the list of source rows matched by the FROM/WHERE part, proj the
column projection, lim and off the LIMIT and OFFSET clauses (none = absent). -/
structure Select (α : Type) (β : Type) where
  rows : List α
  proj : α → β
  lim : Option Int := none
  off : Option Int := none

/-- Select.limit(n): replaces any previous LIMIT clause (generative API). -/
def Select.limit (q : Select α β) (n : Int) : Select α β :=
  { q with lim := some n }

/-- Select.offset(n): replaces any previous OFFSET clause (generative API). -/
def Select.offset (q : Select α β) (n : Int) : Select α β :=
  { q with off := some n }

/-- Select.with_only_columns(1): keeps the FROM/WHERE part and the
LIMIT/OFFSET clauses but replaces the selected columns by the literal 1. -/
def Select.with_only_columns1 (q : Select α β) : Select α Nat :=
  { rows := q.rows, proj := fun _ => 1, lim := q.lim, off := q.off }

/-- Executing a Select: apply OFFSET, then LIMIT, then the projection. -/
def Select.exec (q : Select α β) : List β :=
  let dropped := q.rows.drop (q.off.getD 0).toNat
  (match q.lim with
   | none => dropped
   | some l => dropped.take l.toNat).map q.proj

/-- Result.unique(): removes duplicate rows, keeping the first occurrence of
each (SQLAlchemy deduplicates ORM rows by identity). -/
def uniqueRows [DecidableEq β] (l : List β) : List β :=
  l.foldl (fun acc x => if x ∈ acc then acc else acc ++ [x]) []

/-- The CRUD helper: the bound model (its mapper introspection data), the
current table contents, the id attribute of a record (meaningful when the
model has an id column), and the configuration from __init__. -/
structure CRUD (α : Type) where
  model : Mapper
  tableRows : List α
  idOf : α → Int
  soft_delete_col_name : String := "is_deleted"
  resource_name : String := "Resource"

/-- self.err_messages[404] as set in __init__. -/
def CRUD.err_message_404 (c : CRUD α) : String :=
  c.resource_name ++ " not found"

/-- select(self.model): the base query matching every table row, selecting
the whole record. -/
def CRUD.selectModel (c : CRUD α) : Select α α :=
  { rows := c.tableRows, proj := id }

/-- select(1) as handed to a customizer in exist / exist_n: the customizer
narrows the rows of the model table; the selected column is the literal 1. -/
def CRUD.select1 (c : CRUD α) : Select α Nat :=
  { rows := c.tableRows, proj := fun _ => 1 }

/-- Modelled from the spec: the pagination normalizer
page_size_to_offset_limit of fastapi_batteries.utils.pagination, whose
source file is absent from the repository snapshot (only its tests are
present).  Per spec section 4.1 and the tests: fails with InvalidArgument
when page < 1 (checked first) or size < 1, otherwise returns
((page - 1) * size, size). -/
def page_size_to_offset_limit (page size : Int) : Except CRUDError (Int × Int) :=
  if page < 1 then .error (.invalidArgument "Page must be greater than 0")
  else if size < 1 then .error (.invalidArgument "Size must be greater than 0")
  else .ok ((page - 1) * size, size)

/-- Modelled from the spec: the two pagination descriptor shapes
PaginationPageSize and PaginationOffsetLimit of
fastapi_batteries.pydantic.schemas, whose source file is absent from the
repository snapshot. -/
inductive Pagination where
  | pageSize (page size : Int)
  | offsetLimit (offset limit : Int)
deriving DecidableEq, Repr

/-- The pagination branch shared by get_multi: a PaginationPageSize is
normalized through page_size_to_offset_limit, a PaginationOffsetLimit is
used as-is. -/
def normalizePagination : Pagination → Except CRUDError (Int × Int)
  | .pageSize page size => page_size_to_offset_limit page size
  | .offsetLimit offset limit => .ok (offset, limit)

/-- CRUD.count: applies the customizer to select(self.model), wraps the
result as a subquery and counts its rows; first() or 0 yields the row count
of the subquery. -/
def CRUD.count (c : CRUD α) (select_statement : Select α α → Select α β) : Nat :=
  ((select_statement c.selectModel).exec).length

/-- The two result shapes of get_multi: all records, or a page of records
together with the total count. -/
inductive GetMultiResult (α : Type) where
  | records (rs : List α)
  | recordsWithCount (rs : List α) (total : Nat)
deriving DecidableEq, Repr

/-- CRUD.get_multi.  The second component of the returned pair counts the
count queries issued through self.count (1 in the paginated branch, 0
otherwise); it makes the number of round-trips observable in the embedding.
Translated line by line: build the customized statement, normalize the
pagination descriptor if one was given and apply limit/offset, fetch and
deduplicate, and in the paginated branch additionally count over the
customized statement without the applied pagination. -/
def CRUD.get_multi [DecidableEq α] (c : CRUD α) (pagination : Option Pagination)
    (select_statement : Select α α → Select α α) :
    Except CRUDError (GetMultiResult α × Nat) :=
  let s := select_statement c.selectModel
  match pagination with
  | none => .ok (.records (uniqueRows s.exec), 0)
  | some p =>
    match normalizePagination p with
    | .error e => .error e
    | .ok (offset, limit) =>
      let paginated := (s.limit limit).offset offset
      let records := uniqueRows paginated.exec
      let total := c.count (fun _ => s)
      .ok (.recordsWithCount records total, 1)

/-- CRUD.get_one: executes the customized statement, deduplicates, and
applies one_or_none: no row yields none, one row yields it, several rows
raise MultipleResultsFound unless suppress_multiple_result_exc is true. -/
def CRUD.get_one [DecidableEq α] (c : CRUD α)
    (select_statement : Select α α → Select α α)
    (suppress_multiple_result_exc : Bool) : Except CRUDError (Option α) :=
  match uniqueRows (select_statement c.selectModel).exec with
  | [] => .ok none
  | [x] => .ok (some x)
  | _ =>
    if suppress_multiple_result_exc then .ok none
    else .error .multipleResultsFound

/-- CRUD.get_one_or_404: get_one with suppression disabled;
MultipleResultsFound becomes APIException(400, msg_multiple_results_exc), a
missing record becomes APIException(404, msg_404 or err_messages[404]). -/
def CRUD.get_one_or_404 [DecidableEq α] (c : CRUD α)
    (select_statement : Select α α → Select α α)
    (msg_404 : Option String) (msg_multiple_results_exc : String) :
    Except CRUDError α :=
  match c.get_one select_statement false with
  | .error .multipleResultsFound => .error (.apiException 400 msg_multiple_results_exc)
  | .error e => .error e
  | .ok (some x) => .ok x
  | .ok none => .error (.apiException 404 (msg_404.getD c.err_message_404))

/-- CRUD.delete: requires the model to expose an id attribute (a column
named id), then issues DELETE WHERE model.id == item_id and returns the
rowcount together with the table contents after the delete. -/
def CRUD.delete (c : CRUD α) (item_id : Int) :
    Except CRUDError (Nat × List α) :=
  if "id" ∈ c.model.columns then
    let deleted := c.tableRows.filter (fun r => c.idOf r == item_id)
    let remaining := c.tableRows.filter (fun r => !(c.idOf r == item_id))
    .ok (deleted.length, remaining)
  else
    .error (.preconditionFailed ("Model " ++ c.model.name ++ " must have id attribute"))

/-- CRUD.exist: applies the customizer to select(1), replaces the selected
columns by the literal 1, and wraps the statement in an EXISTS predicate:
true exactly when the subquery yields at least one row; the
result-or-False in the source makes the outcome a plain boolean. -/
def CRUD.exist (c : CRUD α) (select_statement : Select α Nat → Select α β) : Bool :=
  let base := (select_statement c.select1).with_only_columns1
  !base.exec.isEmpty

/-- The rows materialized by exist_n for a given customizer and n: the
customized SELECT 1 statement with its columns replaced by the literal 1 and
LIMIT n+1 appended (replacing any limit the customizer set). -/
def CRUD.exist_n_fetched (c : CRUD α) (select_statement : Select α Nat → Select α β)
    (n : Int) : List Nat :=
  (((select_statement c.select1).with_only_columns1).limit (n + 1)).exec

/-- CRUD.exist_n: rejects n < 0 with ValueError, otherwise fetches at most
n+1 rows of the customized SELECT 1 statement and compares the number
fetched with n. -/
def CRUD.exist_n (c : CRUD α) (select_statement : Select α Nat → Select α β)
    (n : Int) : Except CRUDError Bool :=
  if n < 0 then .error (.invalidArgument "n must be greater than or equal to 0")
  else .ok ((c.exist_n_fetched select_statement n).length == n.toNat)

/-! ### patch -/

/-- A record viewed through its dynamically assignable attributes: an
association list from field name to value, as setattr sees it. -/
abbrev FieldMap := List (String × Int)

/-- setattr(item_db, field, value): updates the field in place if the record
has it, adds it otherwise. -/
def setField : FieldMap → String → Int → FieldMap
  | [], k, v => [(k, v)]
  | (k', v') :: rest, k, v =>
    if k' = k then (k, v) :: rest else (k', v') :: setField rest k v

/-- A validated patch input: every declared field with its current value,
plus the set of field names the caller explicitly provided (pydantic's
fields_set tracking). -/
structure SchemaPatch where
  fields : FieldMap
  explicitly_set : List String
deriving DecidableEq, Repr

/-- patched_item.model_dump(exclude_unset=True): only the explicitly
provided fields. -/
def SchemaPatch.model_dump_exclude_unset (p : SchemaPatch) : FieldMap :=
  p.fields.filter (fun kv => decide (kv.1 ∈ p.explicitly_set))

/-- CRUD.patch: a raw dict is used verbatim, a validated input is dumped
with exclude_unset; each resulting field is assigned onto the record with
setattr, and the (mutated) record itself is returned. -/
def CRUD.patch (item_db : FieldMap) (patched_item : SchemaPatch ⊕ FieldMap) : FieldMap :=
  let patched_data :=
    match patched_item with
    | .inr raw => raw
    | .inl p => p.model_dump_exclude_unset
  patched_data.foldl (fun r kv => setField r kv.1 kv.2) item_db

/-! ### upsert -/

/-- The updatable columns of the model: every mapper column whose key is not
among the primary-key column keys. -/
def Mapper.updatable_columns (m : Mapper) : List String :=
  m.columns.filter (fun ck => decide (ck ∉ m.primary_key))

/-- The batched PostgreSQL insert-on-conflict statement built by upsert:
the dumped payload rows, the conflict index elements, and the columns whose
conflict action assigns the incoming (excluded) value. -/
structure PgInsertUpsert where
  values : List FieldMap
  index_elements : List String
  set_columns : List String
deriving DecidableEq, Repr

/-- CRUD.upsert statement construction: values from the dumped items,
index_elements the primary-key column keys, and the on-conflict set clause
mapping each updatable (non-key) column to its excluded (incoming) value. -/
def CRUD.upsert_statement (c : CRUD α) (upserted_items : List FieldMap) :
    PgInsertUpsert :=
  { values := upserted_items
    index_elements := c.model.primary_key
    set_columns := c.model.updatable_columns }

/-- The conflict key of a payload or stored row: its values at the index
element columns. -/
def pkKey (index_elements : List String) (row : FieldMap) : List (Option Int) :=
  index_elements.map (fun ck => row.lookup ck)

/-- Modelled from the spec: the storage engine's ON CONFLICT DO UPDATE
action (the engine is an external collaborator, spec sections 1 and 4.3).
Each column of the set clause takes the incoming row's value; every other
column of the stored row is untouched. -/
def applyIncoming (set_columns : List String) (stored incoming : FieldMap) : FieldMap :=
  stored.map (fun kv =>
    if kv.1 ∈ set_columns then (kv.1, (incoming.lookup kv.1).getD kv.2) else kv)

/-- Modelled from the spec: processing one payload row of the batched
insert-on-conflict statement — update the stored row with the same conflict
key if one exists, insert the payload row otherwise (database-native
conflict resolution, last-write-wins per key within the batch). -/
def upsertRow (st : PgInsertUpsert) (store : List FieldMap) (incoming : FieldMap) :
    List FieldMap :=
  if store.any (fun r => pkKey st.index_elements r == pkKey st.index_elements incoming) then
    store.map (fun r =>
      if pkKey st.index_elements r == pkKey st.index_elements incoming then
        applyIncoming st.set_columns r incoming
      else r)
  else store ++ [incoming]

/-- Modelled from the spec: executing the batched statement processes the
payload rows in order against the store. -/
def execUpsert (st : PgInsertUpsert) (store : List FieldMap) : List FieldMap :=
  st.values.foldl (upsertRow st) store

/-! ### Concrete instances used by the claim theorems and witnesses -/

/-- A mapper for a model Item with primary key id and data columns x and
is_deleted. -/
def itemMapper : Mapper :=
  { name := "Item", primary_key := ["id"], columns := ["id", "x", "is_deleted"] }

/-- A mapper for a model keyed by uuid, with no id column at all. -/
def noIdMapper : Mapper :=
  { name := "NoId", primary_key := ["uuid"], columns := ["uuid", "x"] }

/-- A table of five matching rows (records are identified by their value). -/
def fiveCrud : CRUD Nat :=
  { model := itemMapper, tableRows := [10, 20, 30, 40, 50], idOf := fun n => (n : Int) }

/-- A table of three rows. -/
def threeCrud : CRUD Nat :=
  { model := itemMapper, tableRows := [1, 2, 3], idOf := fun n => (n : Int) }

/-- A table of three rows, queried through a join that repeats each parent
row (see joinDup). -/
def dupCrud : CRUD Nat :=
  { model := itemMapper, tableRows := [1, 2, 3], idOf := fun n => (n : Int) }

/-- A customizer whose joins repeat each parent row twice. -/
def joinDup : Select Nat Nat → Select Nat Nat :=
  fun s => { s with rows := [1, 1, 2, 2, 3, 3] }

/-- A table of two rows matching the same filter. -/
def pairCrud : CRUD Nat :=
  { model := itemMapper, tableRows := [7, 8], idOf := fun n => (n : Int) }

/-- A table with a single matching row. -/
def oneCrud : CRUD Nat :=
  { model := itemMapper, tableRows := [42], idOf := fun n => (n : Int) }

/-- A table of three rows whose records carry their id. -/
def delCrud : CRUD Nat :=
  { model := itemMapper, tableRows := [1, 2, 3], idOf := fun n => (n : Int) }

/-- A repository bound to a model without an id attribute. -/
def noIdCrud : CRUD Nat :=
  { model := noIdMapper, tableRows := [1, 2, 3], idOf := fun n => (n : Int) }

/-- A table of two rows for the projection-irrelevance witness. -/
def projCrud : CRUD Nat :=
  { model := itemMapper, tableRows := [5, 6], idOf := fun n => (n : Int) }

/-- The identity customizer (selects the whole record / the literal 1). -/
def selId : Select Nat Nat → Select Nat Nat := fun s => s

/-- A customizer selecting a different column set (a boolean projection)
over the same matched rows. -/
def selBool : Select Nat Nat → Select Nat Bool :=
  fun s => { rows := s.rows, proj := fun r => decide (r = 5), lim := s.lim, off := s.off }

/-- An empty repository bound to the Item model, used for upsert. -/
def itemCrud : CRUD Nat :=
  { model := itemMapper, tableRows := [], idOf := fun _ => 0 }

/-- A record instance with three attributes, patch target. -/
def patchItem : FieldMap := [("id", 1), ("x", 10), ("y", 5)]

/-- A patch input declaring fields x and y but with only x explicitly set. -/
def patchInput : SchemaPatch :=
  { fields := [("x", 99), ("y", 77)], explicitly_set := ["x"] }

/-- A raw mapping supplied verbatim to patch. -/
def patchRaw : FieldMap := [("x", 50)]

/-! ### Claim theorems -/

/-- C2: for every page >= 1 and size >= 1, page_size_to_offset_limit
returns ((page - 1) * size, size); for page < 1 it fails with
InvalidArgument "Page must be greater than 0", and for size < 1 with
page >= 1 it fails with InvalidArgument "Size must be greater than 0". -/
theorem page_size_to_offset_limit_spec :
    (∀ page size : Int, 1 ≤ page → 1 ≤ size →
      page_size_to_offset_limit page size = .ok ((page - 1) * size, size)) ∧
    (∀ page size : Int, page < 1 →
      page_size_to_offset_limit page size =
        .error (.invalidArgument "Page must be greater than 0")) ∧
    (∀ page size : Int, 1 ≤ page → size < 1 →
      page_size_to_offset_limit page size =
        .error (.invalidArgument "Size must be greater than 0")) := by
  refine ⟨?_, ?_, ?_⟩
  · intro page size hp hs
    unfold page_size_to_offset_limit
    rw [if_neg (by omega), if_neg (by omega)]
  · intro page size hp
    unfold page_size_to_offset_limit
    rw [if_pos hp]
  · intro page size hp hs
    unfold page_size_to_offset_limit
    rw [if_neg (by omega), if_pos hs]

/-- Witness for C2 at (page, size) = (3, 5), (0, 10) and (1, 0). -/
theorem page_size_to_offset_limit_spec_witness :
    (1 ≤ (3 : Int) ∧ 1 ≤ (5 : Int) ∧
      page_size_to_offset_limit 3 5 = .ok (10, 5)) ∧
    ((0 : Int) < 1 ∧
      page_size_to_offset_limit 0 10 =
        .error (.invalidArgument "Page must be greater than 0")) ∧
    (1 ≤ (1 : Int) ∧ (0 : Int) < 1 ∧
      page_size_to_offset_limit 1 0 =
        .error (.invalidArgument "Size must be greater than 0")) := by
  have h := page_size_to_offset_limit_spec
  refine ⟨⟨by decide, by decide, ?_⟩, ⟨by decide, ?_⟩, ⟨by decide, by decide, ?_⟩⟩
  · have h1 := h.1 3 5 (by decide) (by decide)
    simpa using h1
  · exact h.2.1 0 10 (by decide)
  · exact h.2.2 1 0 (by decide) (by decide)

/-- C3: exist_n rejects n < 0 with InvalidArgument; for n >= 0 and a
customizer that only filters (no limit/offset of its own) matching exactly
k rows it returns true exactly when k = n; and the executed query never
materializes more than n + 1 rows.  Concretely over 3 matching rows: n = 3
is true, n = 2 and n = 4 are false, n = -1 fails. -/
theorem exist_n_spec :
    (∀ (α β : Type) (c : CRUD α) (sel : Select α Nat → Select α β) (n : Int),
      n < 0 →
      c.exist_n sel n =
        .error (.invalidArgument "n must be greater than or equal to 0")) ∧
    (∀ (α β : Type) (c : CRUD α) (sel : Select α Nat → Select α β) (n : Int),
      0 ≤ n →
      (sel c.select1).lim = none →
      (sel c.select1).off = none →
      c.exist_n sel n = .ok (decide ((sel c.select1).rows.length = n.toNat))) ∧
    (∀ (α β : Type) (c : CRUD α) (sel : Select α Nat → Select α β) (n : Int),
      (c.exist_n_fetched sel n).length ≤ (n + 1).toNat) ∧
    (threeCrud.exist_n (fun s => s) 3 = .ok true ∧
     threeCrud.exist_n (fun s => s) 2 = .ok false ∧
     threeCrud.exist_n (fun s => s) 4 = .ok false ∧
     threeCrud.exist_n (fun s => s) (-1) =
       .error (.invalidArgument "n must be greater than or equal to 0")) := by
  refine ⟨?_, ?_, ?_, ?_, ?_, ?_, ?_⟩
  · intro α β c sel n hn
    unfold CRUD.exist_n
    rw [if_pos hn]
  · intro α β c sel n hn hlim hoff
    have hfl : (c.exist_n_fetched sel n).length =
        min (n + 1).toNat (sel c.select1).rows.length := by
      simp [CRUD.exist_n_fetched, Select.with_only_columns1, Select.limit,
        Select.exec, hoff]
    unfold CRUD.exist_n
    rw [if_neg (by omega)]
    congr 1
    rw [hfl, Bool.eq_iff_iff]
    simp only [beq_iff_eq, decide_eq_true_iff]
    omega
  · intro α β c sel n
    simp only [CRUD.exist_n_fetched, Select.with_only_columns1, Select.limit,
      Select.exec, List.length_map, List.length_take]
    omega
  · rfl
  · rfl
  · rfl
  · rfl

/-- Witness for C3 over a concrete two-row table with a filtering
customizer. -/
theorem exist_n_spec_witness :
    ((-2 : Int) < 0 ∧
      pairCrud.exist_n selId (-2) =
        .error (.invalidArgument "n must be greater than or equal to 0")) ∧
    ((0 : Int) ≤ 2 ∧ (selId pairCrud.select1).lim = none ∧
      (selId pairCrud.select1).off = none ∧
      pairCrud.exist_n selId 2 =
        .ok (decide ((selId pairCrud.select1).rows.length = (2 : Int).toNat))) ∧
    (pairCrud.exist_n_fetched selId 2).length ≤ ((2 : Int) + 1).toNat := by
  have h := exist_n_spec
  refine ⟨⟨by decide, h.1 Nat Nat pairCrud selId (-2) (by decide)⟩,
    ⟨by decide, rfl, rfl, h.2.1 Nat Nat pairCrud selId 2 (by decide) rfl rfl⟩,
    h.2.2.1 Nat Nat pairCrud selId 2⟩

/-- C10: exist and exist_n depend only on the matched rows and the
limit/offset clauses of the customized query, never on the selected
columns: two customizers agreeing on those yield equal results. -/
theorem exist_projection_irrelevant :
    ∀ (α beta1 beta2 : Type) (c : CRUD α)
      (sel1 : Select α Nat → Select α beta1)
      (sel2 : Select α Nat → Select α beta2),
      (sel1 c.select1).rows = (sel2 c.select1).rows →
      (sel1 c.select1).lim = (sel2 c.select1).lim →
      (sel1 c.select1).off = (sel2 c.select1).off →
      c.exist sel1 = c.exist sel2 ∧
      ∀ n : Int, 0 ≤ n → c.exist_n sel1 n = c.exist_n sel2 n := by
  intro α beta1 beta2 c sel1 sel2 hrows hlim hoff
  have hkey : (sel1 c.select1).with_only_columns1 =
      (sel2 c.select1).with_only_columns1 := by
    simp [Select.with_only_columns1, hrows, hlim, hoff]
  constructor
  · simp only [CRUD.exist, hkey]
  · intro n hn
    simp only [CRUD.exist_n, CRUD.exist_n_fetched, hkey]

/-- Witness for C10: the whole-row projection and a boolean projection over
the same two matched rows give equal exist and exist_n results. -/
theorem exist_projection_irrelevant_witness :
    (selId projCrud.select1).rows = (selBool projCrud.select1).rows ∧
    (selId projCrud.select1).lim = (selBool projCrud.select1).lim ∧
    (selId projCrud.select1).off = (selBool projCrud.select1).off ∧
    projCrud.exist selId = projCrud.exist selBool ∧
    (0 : Int) ≤ 2 ∧ projCrud.exist_n selId 2 = projCrud.exist_n selBool 2 := by
  have h := exist_projection_irrelevant Nat Nat Bool projCrud selId selBool rfl rfl rfl
  exact ⟨rfl, rfl, rfl, h.1, by decide, h.2 2 (by decide)⟩

/-- C1: for every customizer and pagination descriptor that normalizes to
(offset, limit), get_multi returns the deduplicated rows of the customized
query restricted to that window, together with the row count of the same
customized query without the pagination clause, issuing one count query;
with pagination None it returns the records alone and issues no count
query.  Concretely, (offset 0, limit 2) over 5 matching rows returns
exactly 2 records plus total 5. -/
theorem get_multi_pagination_spec :
    (∀ (α : Type) [DecidableEq α] (c : CRUD α)
      (sel : Select α α → Select α α) (p : Pagination) (offset limit : Int),
      normalizePagination p = .ok (offset, limit) →
      c.get_multi (some p) sel =
        .ok (.recordsWithCount
          (uniqueRows ((((sel c.selectModel).rows.drop offset.toNat).take limit.toNat).map
            (sel c.selectModel).proj))
          (sel c.selectModel).exec.length, 1)) ∧
    (∀ (α : Type) [DecidableEq α] (c : CRUD α) (sel : Select α α → Select α α),
      c.get_multi none sel = .ok (.records (uniqueRows (sel c.selectModel).exec), 0)) ∧
    fiveCrud.get_multi (some (.offsetLimit 0 2)) (fun s => s) =
      .ok (.recordsWithCount [10, 20] 5, 1) := by
  refine ⟨?_, ?_, ?_⟩
  · intro α inst c sel p offset limit h
    simp only [CRUD.get_multi, h]
    simp [Select.limit, Select.offset, Select.exec, CRUD.count]
  · intro α inst c sel
    rfl
  · rfl

/-- Witness for C1 at pagination (page 2, size 2) over the five-row table. -/
theorem get_multi_pagination_spec_witness :
    normalizePagination (.pageSize 2 2) = .ok (2, 2) ∧
    fiveCrud.get_multi (some (.pageSize 2 2)) (fun s => s) =
      .ok (.recordsWithCount
        (uniqueRows (((((fun s => s) fiveCrud.selectModel).rows.drop (2 : Int).toNat).take
          (2 : Int).toNat).map ((fun s => s) fiveCrud.selectModel).proj))
        ((fun s => s) fiveCrud.selectModel).exec.length, 1) := by
  have h : normalizePagination (.pageSize 2 2) = .ok (2, 2) := rfl
  exact ⟨h, get_multi_pagination_spec.1 Nat fiveCrud (fun s => s) (.pageSize 2 2) 2 2 h⟩

/-- C9: in paginated get_multi the records are deduplicated but the total is
not: over a join repeating 3 parent rows twice, the page (offset 0, limit 2)
holds a single record while the total is 6 — more than the 3 distinct
records any caller could receive — and the page is shorter than the limit
although more distinct matches exist. -/
theorem get_multi_dedup_asymmetry :
    dupCrud.get_multi (some (.offsetLimit 0 2)) joinDup =
      .ok (.recordsWithCount [1] 6, 1) ∧
    uniqueRows (joinDup dupCrud.selectModel).exec = [1, 2, 3] ∧
    (uniqueRows (joinDup dupCrud.selectModel).exec).length < 6 ∧
    ([1] : List Nat).length < 2 ∧
    ([1] : List Nat).length < (uniqueRows (joinDup dupCrud.selectModel).exec).length := by
  exact ⟨rfl, rfl, by decide, by decide, by decide⟩

/-- C6: get_one returns the unique matching row when exactly one (distinct)
row matches, none when no row matches; with more than one match it fails
with MultipleResultsFound unless suppress_multiple_result_exc is true, in
which case it yields none. -/
theorem get_one_spec :
    ∀ (α : Type) [DecidableEq α] (c : CRUD α) (sel : Select α α → Select α α),
      (∀ x, uniqueRows (sel c.selectModel).exec = [x] →
        c.get_one sel false = .ok (some x) ∧ c.get_one sel true = .ok (some x)) ∧
      (uniqueRows (sel c.selectModel).exec = [] →
        c.get_one sel false = .ok none ∧ c.get_one sel true = .ok none) ∧
      (∀ x y rest, uniqueRows (sel c.selectModel).exec = x :: y :: rest →
        c.get_one sel false = .error .multipleResultsFound ∧
        c.get_one sel true = .ok none) := by
  intro α inst c sel
  refine ⟨?_, ?_, ?_⟩
  · intro x h
    constructor <;> simp [CRUD.get_one, h]
  · intro h
    constructor <;> simp [CRUD.get_one, h]
  · intro x y rest h
    constructor <;> simp [CRUD.get_one, h]

/-- Witness for C6: a customizer matching two distinct rows fails with
MultipleResultsFound, and yields none under suppression. -/
theorem get_one_spec_witness :
    uniqueRows ((fun s => s) pairCrud.selectModel).exec = 7 :: 8 :: [] ∧
    pairCrud.get_one (fun s => s) false = .error .multipleResultsFound ∧
    pairCrud.get_one (fun s => s) true = .ok none := by
  have h : uniqueRows ((fun s => s) pairCrud.selectModel).exec = 7 :: 8 :: [] := rfl
  have h2 := (get_one_spec Nat pairCrud (fun s => s)).2.2 7 8 [] h
  exact ⟨h, h2.1, h2.2⟩

/-- C5: get_one_or_404 returns the unique matching record; on no match it
fails with APIException of status 404 titled msg_404 or, when absent, the
default resource_name followed by " not found"; on multiple matches it
fails with APIException of status 400 (distinct from 404) titled
msg_multiple_results_exc. -/
theorem get_one_or_404_spec :
    (∀ (α : Type) [DecidableEq α] (c : CRUD α) (sel : Select α α → Select α α)
      (msg404 : Option String) (msgMulti : String),
      (∀ x, uniqueRows (sel c.selectModel).exec = [x] →
        c.get_one_or_404 sel msg404 msgMulti = .ok x) ∧
      (uniqueRows (sel c.selectModel).exec = [] →
        c.get_one_or_404 sel msg404 msgMulti =
          .error (.apiException 404 (msg404.getD (c.resource_name ++ " not found")))) ∧
      (∀ x y rest, uniqueRows (sel c.selectModel).exec = x :: y :: rest →
        c.get_one_or_404 sel msg404 msgMulti =
          .error (.apiException 400 msgMulti))) ∧
    (400 : Nat) ≠ 404 := by
  refine ⟨?_, by decide⟩
  intro α inst c sel msg404 msgMulti
  refine ⟨?_, ?_, ?_⟩
  · intro x h
    have hg : c.get_one sel false = .ok (some x) := by simp [CRUD.get_one, h]
    simp [CRUD.get_one_or_404, hg]
  · intro h
    have hg : c.get_one sel false = .ok none := by simp [CRUD.get_one, h]
    simp [CRUD.get_one_or_404, CRUD.err_message_404, hg]
  · intro x y rest h
    have hg : c.get_one sel false = .error .multipleResultsFound := by
      simp [CRUD.get_one, h]
    simp [CRUD.get_one_or_404, hg]

/-- Witness for C5: the unique-match and no-match branches over concrete
tables. -/
theorem get_one_or_404_spec_witness :
    uniqueRows ((fun s => s) oneCrud.selectModel).exec = [42] ∧
    oneCrud.get_one_or_404 (fun s => s) none "Multiple found" = .ok 42 ∧
    uniqueRows ((fun s : Select Nat Nat => { s with rows := [] }) oneCrud.selectModel).exec = [] ∧
    oneCrud.get_one_or_404 (fun s : Select Nat Nat => { s with rows := [] }) none "Multiple found" =
      .error (.apiException 404 "Resource not found") := by
  have h1 : uniqueRows ((fun s => s) oneCrud.selectModel).exec = [42] := rfl
  have h2 : uniqueRows ((fun s : Select Nat Nat => { s with rows := [] })
      oneCrud.selectModel).exec = ([] : List Nat) := rfl
  refine ⟨h1, (get_one_or_404_spec.1 Nat oneCrud (fun s => s) none "Multiple found").1 42 h1,
    h2, ?_⟩
  have h3 := (get_one_or_404_spec.1 Nat oneCrud (fun s : Select Nat Nat => { s with rows := [] })
    none "Multiple found").2.1 h2
  simpa using h3

/-- C7: delete fails with the AttributeError (spec: PreconditionFailed) when
the model has no id column; otherwise it removes exactly the rows whose id
equals item_id and returns their number, 0 — not an error — when none
matched. -/
theorem delete_spec :
    (∀ (α : Type) (c : CRUD α) (item_id : Int),
      "id" ∉ c.model.columns →
      c.delete item_id = .error (.preconditionFailed
        ("Model " ++ c.model.name ++ " must have id attribute"))) ∧
    (∀ (α : Type) (c : CRUD α) (item_id : Int),
      "id" ∈ c.model.columns →
      c.delete item_id =
        .ok ((c.tableRows.filter (fun r => c.idOf r == item_id)).length,
          c.tableRows.filter (fun r => !(c.idOf r == item_id)))) ∧
    (∀ (α : Type) (c : CRUD α) (item_id : Int),
      "id" ∈ c.model.columns →
      (∀ r, r ∈ c.tableRows → c.idOf r ≠ item_id) →
      c.delete item_id = .ok (0, c.tableRows)) := by
  refine ⟨?_, ?_, ?_⟩
  · intro α c item_id h
    simp [CRUD.delete, h]
  · intro α c item_id h
    simp [CRUD.delete, h]
  · intro α c item_id h hnone
    have h1 : c.tableRows.filter (fun r => c.idOf r == item_id) = [] := by
      rw [List.filter_eq_nil_iff]
      intro a ha
      simpa using hnone a ha
    have h2 : c.tableRows.filter (fun r => !(c.idOf r == item_id)) = c.tableRows := by
      rw [List.filter_eq_self]
      intro a ha
      simpa using hnone a ha
    simp [CRUD.delete, h, h1, h2]

/-- Witness for C7: deleting an existing id removes one row, deleting an
absent id returns 0 rows, and a model without an id column fails. -/
theorem delete_spec_witness :
    ("id" ∈ delCrud.model.columns ∧ delCrud.delete 2 = .ok (1, [1, 3])) ∧
    ((∀ r, r ∈ delCrud.tableRows → delCrud.idOf r ≠ 99) ∧
      delCrud.delete 99 = .ok (0, delCrud.tableRows)) ∧
    ("id" ∉ noIdCrud.model.columns ∧ noIdCrud.delete 1 =
      .error (.preconditionFailed
        ("Model " ++ noIdCrud.model.name ++ " must have id attribute"))) := by
  have hid : "id" ∈ delCrud.model.columns := by decide
  have hno : "id" ∉ noIdCrud.model.columns := by decide
  have h99 : ∀ r, r ∈ delCrud.tableRows → delCrud.idOf r ≠ 99 := by decide
  refine ⟨⟨hid, ?_⟩, ⟨h99, delete_spec.2.2 Nat delCrud 99 hid h99⟩,
    ⟨hno, delete_spec.1 Nat noIdCrud 1 hno⟩⟩
  have h2 := delete_spec.2.1 Nat delCrud 2 hid
  simpa using h2

/-! ### Association-list lemmas for patch -/

theorem lookup_setField_self (r : FieldMap) (k : String) (v : Int) :
    (setField r k v).lookup k = some v := by
  induction r with
  | nil => simp [setField, List.lookup]
  | cons kv rest ih =>
    obtain ⟨a, b⟩ := kv
    by_cases h : a = k
    · subst h
      simp [setField, List.lookup]
    · have hka : (k == a) = false := beq_eq_false_iff_ne.mpr fun hh => h hh.symm
      simp [setField, h, List.lookup, hka, ih]

theorem lookup_setField_ne (r : FieldMap) (k q : String) (v : Int) (h : q ≠ k) :
    (setField r k v).lookup q = r.lookup q := by
  have hqk : (q == k) = false := beq_eq_false_iff_ne.mpr h
  induction r with
  | nil => simp [setField, List.lookup, hqk]
  | cons kv rest ih =>
    obtain ⟨a, b⟩ := kv
    by_cases hak : a = k
    · subst hak
      simp [setField, List.lookup, hqk]
    · by_cases haq : q = a
      · subst haq
        simp [setField, hak, List.lookup]
      · have hqa : (q == a) = false := beq_eq_false_iff_ne.mpr haq
        simp [setField, hak, List.lookup, hqa, ih]

theorem lookup_patch_foldl_not_mem (l : FieldMap) (r : FieldMap) (k : String)
    (h : k ∉ l.map Prod.fst) :
    (l.foldl (fun acc kv => setField acc kv.1 kv.2) r).lookup k = r.lookup k := by
  induction l generalizing r with
  | nil => rfl
  | cons kv rest ih =>
    simp only [List.map_cons, List.mem_cons, not_or] at h
    simp only [List.foldl_cons]
    rw [ih _ h.2, lookup_setField_ne _ _ _ _ h.1]

theorem lookup_patch_foldl_mem (l : FieldMap) (r : FieldMap) (k : String) (v : Int)
    (hnd : (l.map Prod.fst).Nodup) (hmem : (k, v) ∈ l) :
    (l.foldl (fun acc kv => setField acc kv.1 kv.2) r).lookup k = some v := by
  induction l generalizing r with
  | nil => cases hmem
  | cons kv rest ih =>
    obtain ⟨a, b⟩ := kv
    simp only [List.map_cons, List.nodup_cons] at hnd
    simp only [List.foldl_cons]
    rcases List.mem_cons.mp hmem with heq | hrest
    · have hk : k = a := congrArg Prod.fst heq
      have hv : v = b := congrArg Prod.snd heq
      subst hk
      subst hv
      rw [lookup_patch_foldl_not_mem rest _ k hnd.1, lookup_setField_self]
    · exact ih (setField r a b) hnd.2 hrest

theorem not_mem_dump_keys_of_unset (p : SchemaPatch) (k : String)
    (h : k ∉ p.explicitly_set) :
    k ∉ p.model_dump_exclude_unset.map Prod.fst := by
  intro hk
  obtain ⟨kv, hkv, hfst⟩ := List.mem_map.mp hk
  have hmem := (List.mem_filter.mp hkv).2
  rw [decide_eq_true_eq] at hmem
  exact h (hfst ▸ hmem)

/-- C8: patch assigns onto the record exactly the explicitly set fields of a
validated patch input (or the entries of a raw mapping verbatim); every
field not present among them — in particular every unset field — keeps its
value. -/
theorem patch_spec :
    (∀ (item : FieldMap) (p : SchemaPatch) (k : String),
      k ∉ p.model_dump_exclude_unset.map Prod.fst →
      (CRUD.patch item (.inl p)).lookup k = item.lookup k) ∧
    (∀ (item : FieldMap) (p : SchemaPatch) (k : String),
      k ∉ p.explicitly_set →
      (CRUD.patch item (.inl p)).lookup k = item.lookup k) ∧
    (∀ (item : FieldMap) (p : SchemaPatch) (k : String) (v : Int),
      (p.model_dump_exclude_unset.map Prod.fst).Nodup →
      (k, v) ∈ p.model_dump_exclude_unset →
      (CRUD.patch item (.inl p)).lookup k = some v) ∧
    (∀ (item raw : FieldMap) (k : String),
      k ∉ raw.map Prod.fst →
      (CRUD.patch item (.inr raw)).lookup k = item.lookup k) ∧
    (∀ (item raw : FieldMap) (k : String) (v : Int),
      (raw.map Prod.fst).Nodup → (k, v) ∈ raw →
      (CRUD.patch item (.inr raw)).lookup k = some v) := by
  refine ⟨?_, ?_, ?_, ?_, ?_⟩
  · intro item p k h
    exact lookup_patch_foldl_not_mem _ _ _ h
  · intro item p k h
    exact lookup_patch_foldl_not_mem _ _ _ (not_mem_dump_keys_of_unset p k h)
  · intro item p k v hnd hmem
    exact lookup_patch_foldl_mem _ _ _ _ hnd hmem
  · intro item raw k h
    exact lookup_patch_foldl_not_mem _ _ _ h
  · intro item raw k v hnd hmem
    exact lookup_patch_foldl_mem _ _ _ _ hnd hmem

/-- Witness for C8: patching a three-field record with an input whose only
set field is x updates x, leaves the unset field y and the untouched field
id unchanged, and a raw mapping applies verbatim. -/
theorem patch_spec_witness :
    ("y" ∉ patchInput.explicitly_set ∧
      (CRUD.patch patchItem (.inl patchInput)).lookup "y" = patchItem.lookup "y") ∧
    ("id" ∉ patchInput.model_dump_exclude_unset.map Prod.fst ∧
      (CRUD.patch patchItem (.inl patchInput)).lookup "id" = patchItem.lookup "id") ∧
    ((patchInput.model_dump_exclude_unset.map Prod.fst).Nodup ∧
      ("x", 99) ∈ patchInput.model_dump_exclude_unset ∧
      (CRUD.patch patchItem (.inl patchInput)).lookup "x" = some 99) ∧
    ((patchRaw.map Prod.fst).Nodup ∧ ("x", 50) ∈ patchRaw ∧
      (CRUD.patch patchItem (.inr patchRaw)).lookup "x" = some 50) := by
  have hy : "y" ∉ patchInput.explicitly_set := by decide
  have hid : "id" ∉ patchInput.model_dump_exclude_unset.map Prod.fst := by decide
  have hnd : (patchInput.model_dump_exclude_unset.map Prod.fst).Nodup := by decide
  have hx : ("x", (99 : Int)) ∈ patchInput.model_dump_exclude_unset := by decide
  have hndr : (patchRaw.map Prod.fst).Nodup := by decide
  have hxr : ("x", (50 : Int)) ∈ patchRaw := by decide
  exact ⟨⟨hy, patch_spec.2.1 patchItem patchInput "y" hy⟩,
    ⟨hid, patch_spec.1 patchItem patchInput "id" hid⟩,
    ⟨hnd, hx, patch_spec.2.2.1 patchItem patchInput "x" 99 hnd hx⟩,
    ⟨hndr, hxr, patch_spec.2.2.2.2 patchItem patchRaw "x" 50 hndr hxr⟩⟩

/-- C4: the upsert statement's conflict set assigns the incoming value to
exactly the non-primary-key columns (never a key column), its index
elements are the primary-key columns, and executing the batch
[(id 1, x 10), (id 1, x 20)] against an empty store leaves a single row
(id 1, x 20): the last value for the key wins and the key is never
duplicated. -/
theorem upsert_spec :
    (∀ (α : Type) (c : CRUD α) (items : List FieldMap) (col : String),
      col ∈ (c.upsert_statement items).set_columns ↔
        (col ∈ c.model.columns ∧ col ∉ c.model.primary_key)) ∧
    (∀ (α : Type) (c : CRUD α) (items : List FieldMap),
      (c.upsert_statement items).index_elements = c.model.primary_key ∧
      (c.upsert_statement items).values = items) ∧
    execUpsert (itemCrud.upsert_statement
        [[("id", 1), ("x", 10)], [("id", 1), ("x", 20)]]) [] =
      [[("id", 1), ("x", 20)]] := by
  refine ⟨?_, ?_, ?_⟩
  · intro α c items col
    simp [CRUD.upsert_statement, Mapper.updatable_columns, List.mem_filter]
  · intro α c items
    exact ⟨rfl, rfl⟩
  · rfl
